import Mathlib

/-!
Shallow embedding of the cremodel repository's financial calculation engine
(`src/calculations/distributions.py`, `src/calculations/financing.py`,
`src/calculations/cash_flows.py`, and the IRR solver embedded in
`src/app_v2.0_WIP.py`), together with theorems settling the frozen claims.

Modelling conventions:
- Python floats are modelled as exact rationals (`ℚ`).
- Year / term counts that the Python code uses as integer loop bounds and
  integer-division operands are modelled as `ℕ` (Python `//` on non-negative
  ints is `Nat.div`).
- A Python function that can raise `ZeroDivisionError` on some input relevant
  to a claim is modelled as `Option`-returning, with `none` exactly on the
  raising inputs (only `calculate_waterfall_distribution` needs this: every
  other division in it is guarded by the source).
- String-valued presentation fields of returned dicts (status labels,
  explanations) are omitted or replaced by small inductive/Bool encodings;
  all numeric fields are kept with their source names.
-/

/-! ## distributions.py -/

/-- Result dictionary of `calculate_waterfall_distribution`
(src/calculations/distributions.py lines 90-116), numeric fields only. -/
structure WaterfallResult where
  cash_available : ℚ
  lp_pref_current : ℚ
  gp_pref_current : ℚ
  lp_pref_owed : ℚ
  gp_pref_owed : ℚ
  lp_pref_paid : ℚ
  gp_pref_paid : ℚ
  gp_catchup : ℚ
  lp_split : ℚ
  gp_split : ℚ
  lp_total : ℚ
  gp_total : ℚ
  total_distributed : ℚ
  new_lp_deficit : ℚ
  new_gp_deficit : ℚ
  deriving DecidableEq, Repr

/-- Embedding of `calculate_waterfall_distribution`
(src/calculations/distributions.py lines 4-116).  Returns `none` exactly when
the Python code raises `ZeroDivisionError`: in the GP catch-up tier the source
divides by `1 - gp_profit_share / 100` whenever
`include_catchup and remaining_cash > 0 and gp_profit_share > 0`, with no
guard against that denominator being zero.  All other divisions in the source
are guarded (`total_pref_owed > 0` before the pro-rata split; the computed
`lp_equity_pct` / `gp_equity_pct` of lines 26-27 are never used and are
omitted). -/
def calculate_waterfall_distribution (cash_available lp_equity gp_equity
    pref_rate gp_profit_share lp_cumulative_deficit gp_cumulative_deficit : ℚ)
    (include_catchup : Bool) : Option WaterfallResult :=
  let lp_pref_current := lp_equity * (pref_rate / 100)
  let gp_pref_current := gp_equity * (pref_rate / 100)
  let lp_total_pref_owed := lp_pref_current + lp_cumulative_deficit
  let gp_total_pref_owed := gp_pref_current + gp_cumulative_deficit
  let total_pref_owed := lp_total_pref_owed + gp_total_pref_owed
  -- Tier 2: preferred return, paid pro-rata by amount owed (lines 52-60).
  -- The single Python branch is rendered as one scalar `if` per assigned
  -- variable, all guarded by the same line-52 condition.
  let pref_payment := min cash_available total_pref_owed
  let lp_pref_paid :=
    if cash_available > 0 ∧ total_pref_owed > 0 then
      pref_payment * (lp_total_pref_owed / total_pref_owed)
    else 0
  let gp_pref_paid :=
    if cash_available > 0 ∧ total_pref_owed > 0 then
      pref_payment * (gp_total_pref_owed / total_pref_owed)
    else 0
  let remaining_cash1 :=
    if cash_available > 0 ∧ total_pref_owed > 0 then
      cash_available - pref_payment
    else cash_available
  let new_lp_deficit := lp_total_pref_owed - lp_pref_paid
  let new_gp_deficit := gp_total_pref_owed - gp_pref_paid
  -- Tier 3: GP catch-up (lines 66-78); Python divides by 1 - share/100 here
  if include_catchup ∧ remaining_cash1 > 0 ∧ gp_profit_share > 0 ∧
      1 - gp_profit_share / 100 = 0 then
    none
  else
    let gp_catchup :=
      if include_catchup ∧ remaining_cash1 > 0 ∧ gp_profit_share > 0 then
        min remaining_cash1
          (max 0 ((gp_profit_share / 100 * (lp_pref_paid + gp_pref_paid)) /
            (1 - gp_profit_share / 100)))
      else 0
    let remaining_cash2 := remaining_cash1 - gp_catchup
    -- Tier 4: residual split (lines 81-84), one scalar `if` per variable
    let lp_split :=
      if remaining_cash2 > 0 then remaining_cash2 * ((100 - gp_profit_share) / 100)
      else 0
    let gp_split :=
      if remaining_cash2 > 0 then remaining_cash2 * (gp_profit_share / 100)
      else 0
    let lp_total := lp_pref_paid + lp_split
    let gp_total := gp_pref_paid + gp_catchup + gp_split
    some
      { cash_available := cash_available
        lp_pref_current := lp_pref_current
        gp_pref_current := gp_pref_current
        lp_pref_owed := lp_total_pref_owed
        gp_pref_owed := gp_total_pref_owed
        lp_pref_paid := lp_pref_paid
        gp_pref_paid := gp_pref_paid
        gp_catchup := gp_catchup
        lp_split := lp_split
        gp_split := gp_split
        lp_total := lp_total
        gp_total := gp_total
        total_distributed := lp_total + gp_total
        new_lp_deficit := new_lp_deficit
        new_gp_deficit := new_gp_deficit }

/-- Structural bookkeeping facts that hold for every returning run of
`calculate_waterfall_distribution`: the totals are the sums of their tier
components and the rolled-forward deficits are owed minus paid (source
lines 63-64 and 86-88). -/
lemma waterfall_totals_eq (cash lp gp pr share lpD gpD : ℚ)
    (ic : Bool) (d : WaterfallResult)
    (h : calculate_waterfall_distribution cash lp gp pr share lpD gpD ic = some d) :
    d.lp_total = d.lp_pref_paid + d.lp_split ∧
    d.gp_total = d.gp_pref_paid + d.gp_catchup + d.gp_split ∧
    d.new_lp_deficit = (lp * (pr / 100) + lpD) - d.lp_pref_paid ∧
    d.new_gp_deficit = (gp * (pr / 100) + gpD) - d.gp_pref_paid ∧
    d.lp_pref_owed = lp * (pr / 100) + lpD ∧
    d.gp_pref_owed = gp * (pr / 100) + gpD := by
  simp only [calculate_waterfall_distribution] at h
  split_ifs at h
  all_goals first
    | exact Option.noConfusion h
    | (rw [Option.some_inj] at h; subst h; exact ⟨rfl, rfl, rfl, rfl, rfl, rfl⟩)

/-- C1: at cash 100, LP equity 90, GP equity 10, pref 10%, GP share 20%,
no prior deficits, catch-up enabled, the code pays LP pref 9 and GP pref 1 and
then sets GP catch-up to (0.2*10)/(1-0.2) = 5/2, whereas the formula stated by
the claim (and by the source's own comments on lines 70 and 75) gives
(0.2*10)/(1-0.2) - 1 = 3/2; consequently GP's (pref-paid + catch-up) = 7/2 is
not 20% of the total distributed so far (20% of 25/2 = 5/2). -/
theorem waterfall_catchup_omits_gp_pref :
    (calculate_waterfall_distribution 100 90 10 10 20 0 0 true).map
        (fun d => (d.lp_pref_paid, d.gp_pref_paid, d.gp_catchup)) =
      some (9, 1, 5 / 2) ∧
    (20 / 100 * ((9 : ℚ) + 1)) / (1 - 20 / 100) - 1 = 3 / 2 ∧
    (5 / 2 : ℚ) ≠ 3 / 2 ∧
    (1 : ℚ) + 5 / 2 ≠ 20 / 100 * (9 + 1 + 5 / 2) := by
  refine ⟨by norm_num [calculate_waterfall_distribution], by norm_num,
    by norm_num, by norm_num⟩

/-- C9: with catch-up enabled, GP profit share exactly 100 and positive cash
remaining after the preference tier (cash 100 against pref owed 10), the
catch-up tier divides by 1 - 100/100 = 0 and the function raises
(modelled as `none`); conversely for every input with gp_profit_share < 100
the function never raises. -/
theorem waterfall_catchup_div_zero_boundary :
    calculate_waterfall_distribution 100 90 10 10 100 0 0 true = none ∧
    ∀ (cash lp gp pr share lpD gpD : ℚ) (ic : Bool), share < 100 →
      calculate_waterfall_distribution cash lp gp pr share lpD gpD ic ≠ none := by
  constructor
  · norm_num [calculate_waterfall_distribution]
  · intro cash lp gp pr share lpD gpD ic hshare
    simp only [calculate_waterfall_distribution]
    split_ifs with h1 h2 h3 h4 h5 h6 h7 h8 h9
    all_goals try simp
    all_goals first
      | exact absurd h2.2.2.2 (by intro h0; linarith)
      | exact absurd h6.2.2.2 (by intro h0; linarith)

/-- Witness for the universally quantified half of C9's theorem: with GP
profit share 20 < 100 and otherwise the same input, the function returns a
value. -/
theorem waterfall_catchup_div_zero_boundary_witness :
    (20 : ℚ) < 100 ∧
    calculate_waterfall_distribution 100 90 10 10 20 0 0 true ≠ none :=
  ⟨by norm_num,
   waterfall_catchup_div_zero_boundary.2 100 90 10 10 20 0 0 true (by norm_num)⟩

/-- C10: when cash available is ≤ 0, nothing is distributed (every payout
field is exactly 0) and each party's new carried deficit is its full
current-year preference plus its prior deficit. -/
theorem waterfall_zero_cash_distributes_nothing (cash lp gp pr share lpD gpD : ℚ)
    (ic : Bool) (hcash : cash ≤ 0) :
    calculate_waterfall_distribution cash lp gp pr share lpD gpD ic =
      some { cash_available := cash
             lp_pref_current := lp * (pr / 100)
             gp_pref_current := gp * (pr / 100)
             lp_pref_owed := lp * (pr / 100) + lpD
             gp_pref_owed := gp * (pr / 100) + gpD
             lp_pref_paid := 0
             gp_pref_paid := 0
             gp_catchup := 0
             lp_split := 0
             gp_split := 0
             lp_total := 0
             gp_total := 0
             total_distributed := 0
             new_lp_deficit := lp * (pr / 100) + lpD
             new_gp_deficit := gp * (pr / 100) + gpD } := by
  have hnot : ¬ cash > 0 := not_lt.2 hcash
  simp only [calculate_waterfall_distribution, hnot, false_and, if_false,
    and_false, false_and, sub_zero, add_zero]

/-- Witness for C10 at a concrete input with strictly negative cash. -/
theorem waterfall_zero_cash_witness :
    calculate_waterfall_distribution (-3) 10 5 8 20 1 2 true =
      some { cash_available := -3
             lp_pref_current := 10 * ((8 : ℚ) / 100)
             gp_pref_current := 5 * ((8 : ℚ) / 100)
             lp_pref_owed := 10 * ((8 : ℚ) / 100) + 1
             gp_pref_owed := 5 * ((8 : ℚ) / 100) + 2
             lp_pref_paid := 0
             gp_pref_paid := 0
             gp_catchup := 0
             lp_split := 0
             gp_split := 0
             lp_total := 0
             gp_total := 0
             total_distributed := 0
             new_lp_deficit := 10 * ((8 : ℚ) / 100) + 1
             new_gp_deficit := 5 * ((8 : ℚ) / 100) + 2 } :=
  waterfall_zero_cash_distributes_nothing (-3) 10 5 8 20 1 2 true (by norm_num)

/-- Per-year preference-payment bounds: whenever the function returns and the
amounts owed to each party are non-negative, each party's preference payment
lies between 0 and the amount owed to it (pro-rata split of
`min(cash, total owed)` by shares of a non-negative total). -/
lemma waterfall_pref_paid_bounds (cash lp gp pr share lpD gpD : ℚ)
    (ic : Bool) (d : WaterfallResult)
    (hA : 0 ≤ lp * (pr / 100) + lpD) (hB : 0 ≤ gp * (pr / 100) + gpD)
    (h : calculate_waterfall_distribution cash lp gp pr share lpD gpD ic = some d) :
    0 ≤ d.lp_pref_paid ∧ d.lp_pref_paid ≤ lp * (pr / 100) + lpD ∧
    0 ≤ d.gp_pref_paid ∧ d.gp_pref_paid ≤ gp * (pr / 100) + gpD := by
  simp only [calculate_waterfall_distribution] at h
  set a := lp * (pr / 100) + lpD with ha
  set b := gp * (pr / 100) + gpD with hb
  set P := min cash (a + b) with hP
  split_ifs at h with h1 h2 h3 h4 h5 h6 h7 h8 h9
  all_goals (rw [Option.some_inj] at h; subst h; dsimp only)
  all_goals first
    | · obtain ⟨hc, htot⟩ := h1
        have hP0 : (0 : ℚ) ≤ P := le_min hc.le htot.le
        have hPle : P ≤ a + b := min_le_right _ _
        have hda : (0 : ℚ) ≤ a / (a + b) := div_nonneg hA htot.le
        have hdb : (0 : ℚ) ≤ b / (a + b) := div_nonneg hB htot.le
        have h1a : P * (a / (a + b)) ≤ (a + b) * (a / (a + b)) :=
          mul_le_mul_of_nonneg_right hPle hda
        have h1b : P * (b / (a + b)) ≤ (a + b) * (b / (a + b)) :=
          mul_le_mul_of_nonneg_right hPle hdb
        have h2a : (a + b) * (a / (a + b)) = a := by
          rw [mul_comm]; exact div_mul_cancel₀ a (ne_of_gt htot)
        have h2b : (a + b) * (b / (a + b)) = b := by
          rw [mul_comm]; exact div_mul_cancel₀ b (ne_of_gt htot)
        exact ⟨mul_nonneg hP0 hda, by linarith, mul_nonneg hP0 hdb, by linarith⟩
    | exact ⟨le_refl 0, hA, le_refl 0, hB⟩

/-- A party's rolled-forward deficit strictly decreases across a year exactly
when that year's preference payment to the party strictly exceeds the party's
current-year preference (the deficit update is owed minus paid). -/
lemma waterfall_deficit_decrease_iff (cash lp gp pr share lpD gpD : ℚ)
    (ic : Bool) (d : WaterfallResult)
    (h : calculate_waterfall_distribution cash lp gp pr share lpD gpD ic = some d) :
    (d.new_lp_deficit < lpD ↔ lp * (pr / 100) < d.lp_pref_paid) ∧
    (d.new_gp_deficit < gpD ↔ gp * (pr / 100) < d.gp_pref_paid) := by
  obtain ⟨-, -, h3, h4, -, -⟩ := waterfall_totals_eq cash lp gp pr share lpD gpD ic d h
  constructor
  · rw [h3]; constructor <;> intro hx <;> linarith
  · rw [h4]; constructor <;> intro hx <;> linarith

/-- One row of the DataFrame built by `calculate_multi_year_waterfall`
(src/calculations/distributions.py lines 163-183), numeric columns only. -/
structure WaterfallRow where
  year : ℕ
  cash_available : ℚ
  lp_pref : ℚ
  lp_split : ℚ
  lp_total : ℚ
  lp_cumulative : ℚ
  gp_pref : ℚ
  gp_catchup : ℚ
  gp_split : ℚ
  gp_total : ℚ
  gp_cumulative : ℚ
  lp_pref_deficit : ℚ
  gp_pref_deficit : ℚ
  deriving DecidableEq, Repr

/-- Loop body of `calculate_multi_year_waterfall` (lines 144-183): walks the
yearly cash-available values carrying the two cumulative deficits and the two
cumulative distribution totals; a raise from any year's
`calculate_waterfall_distribution` call propagates as `none`.  The source also
accumulates `lp_cumulative_pref_paid` / `gp_cumulative_pref_paid`
(lines 139-140, 158-159) but never emits them, so they are omitted. -/
def multi_year_go (lp_equity gp_equity pref_rate gp_profit_share : ℚ)
    (include_catchup : Bool) :
    List ℚ → ℕ → ℚ → ℚ → ℚ → ℚ → Option (List WaterfallRow)
  | [], _, _, _, _, _ => some []
  | cash :: rest, year, lpD, gpD, lpCum, gpCum =>
    match calculate_waterfall_distribution cash lp_equity gp_equity pref_rate
        gp_profit_share lpD gpD include_catchup with
    | none => none
    | some d =>
      match multi_year_go lp_equity gp_equity pref_rate gp_profit_share
          include_catchup rest (year + 1) d.new_lp_deficit d.new_gp_deficit
          (lpCum + d.lp_total) (gpCum + d.gp_total) with
      | none => none
      | some rows =>
        some ({ year := year, cash_available := cash,
                lp_pref := d.lp_pref_paid, lp_split := d.lp_split,
                lp_total := d.lp_total, lp_cumulative := lpCum + d.lp_total,
                gp_pref := d.gp_pref_paid, gp_catchup := d.gp_catchup,
                gp_split := d.gp_split, gp_total := d.gp_total,
                gp_cumulative := gpCum + d.gp_total,
                lp_pref_deficit := d.new_lp_deficit,
                gp_pref_deficit := d.new_gp_deficit } :: rows)

/-- Embedding of `calculate_multi_year_waterfall`
(src/calculations/distributions.py lines 119-185).  The cash-flow DataFrame is
modelled as the list of its `Cash Available` column values, with `Year` the
1-based position; both cumulative deficits start at 0 (lines 137-138). -/
def calculate_multi_year_waterfall (cash_list : List ℚ)
    (lp_equity gp_equity pref_rate gp_profit_share : ℚ)
    (include_catchup : Bool) : Option (List WaterfallRow) :=
  multi_year_go lp_equity gp_equity pref_rate gp_profit_share include_catchup
    cash_list 1 0 0 0 0

/-- Adjacent-row relation of the amended C2: a party's carried deficit
strictly decreases from one year's row to the next exactly when the later
row's preference payment strictly exceeds that party's current-year
preference. -/
def deficit_step (lp_pref_current gp_pref_current : ℚ) (r1 r2 : WaterfallRow) :
    Prop :=
  (r2.lp_pref_deficit < r1.lp_pref_deficit ↔ lp_pref_current < r2.lp_pref) ∧
  (r2.gp_pref_deficit < r1.gp_pref_deficit ↔ gp_pref_current < r2.gp_pref)

/-- Induction backbone for the amended C2 over the multi-year loop: starting
from non-negative carried deficits, every produced row has non-negative
deficits, adjacent rows satisfy `deficit_step`, and the first row satisfies
the same decrease-iff property against the incoming deficits. -/
lemma multi_year_go_deficit_sound (lp gp pr share : ℚ) (ic : Bool)
    (hlp : 0 ≤ lp) (hgp : 0 ≤ gp) (hpr : 0 ≤ pr) :
    ∀ (cl : List ℚ) (yr : ℕ) (lpD gpD lpC gpC : ℚ), 0 ≤ lpD → 0 ≤ gpD →
      ∀ rows, multi_year_go lp gp pr share ic cl yr lpD gpD lpC gpC = some rows →
      (∀ r ∈ rows, 0 ≤ r.lp_pref_deficit ∧ 0 ≤ r.gp_pref_deficit) ∧
      List.Chain' (deficit_step (lp * (pr / 100)) (gp * (pr / 100))) rows ∧
      ∀ r ∈ rows.head?,
        (r.lp_pref_deficit < lpD ↔ lp * (pr / 100) < r.lp_pref) ∧
        (r.gp_pref_deficit < gpD ↔ gp * (pr / 100) < r.gp_pref) := by
  intro cl
  induction cl with
  | nil =>
    intro yr lpD gpD lpC gpC h1 h2 rows h
    simp only [multi_year_go, Option.some_inj] at h
    subst h
    exact ⟨by simp, List.chain'_nil, by simp⟩
  | cons cash rest ih =>
    intro yr lpD gpD lpC gpC hlpD hgpD rows h
    simp only [multi_year_go] at h
    split at h
    · exact Option.noConfusion h
    rename_i d hw
    split at h
    · exact Option.noConfusion h
    rename_i rows2 hrest
    rw [Option.some_inj] at h
    subst h
    have hcur_lp : (0 : ℚ) ≤ lp * (pr / 100) :=
      mul_nonneg hlp (div_nonneg hpr (by norm_num))
    have hcur_gp : (0 : ℚ) ≤ gp * (pr / 100) :=
      mul_nonneg hgp (div_nonneg hpr (by norm_num))
    have howedA : 0 ≤ lp * (pr / 100) + lpD := add_nonneg hcur_lp hlpD
    have howedB : 0 ≤ gp * (pr / 100) + gpD := add_nonneg hcur_gp hgpD
    obtain ⟨hp1, hp2, hp3, hp4⟩ :=
      waterfall_pref_paid_bounds cash lp gp pr share lpD gpD ic d howedA howedB hw
    obtain ⟨-, -, hd3, hd4, -, -⟩ :=
      waterfall_totals_eq cash lp gp pr share lpD gpD ic d hw
    have hnewA : 0 ≤ d.new_lp_deficit := by rw [hd3]; linarith
    have hnewB : 0 ≤ d.new_gp_deficit := by rw [hd4]; linarith
    obtain ⟨ih1, ih2, ih3⟩ :=
      ih (yr + 1) d.new_lp_deficit d.new_gp_deficit (lpC + d.lp_total)
        (gpC + d.gp_total) hnewA hnewB rows2 hrest
    have hstep :=
      waterfall_deficit_decrease_iff cash lp gp pr share lpD gpD ic d hw
    refine ⟨?_, ?_, ?_⟩
    · intro r hr
      rcases List.mem_cons.1 hr with hr | hr
      · subst hr; exact ⟨hnewA, hnewB⟩
      · exact ih1 r hr
    · exact List.chain'_cons'.2 ⟨fun r2 hr2 => ih3 r2 hr2, ih2⟩
    · intro r hr
      simp only [Option.mem_def, List.head?_cons, Option.some_inj] at hr
      subst hr
      exact hstep

/-- C2 counterexample: with LP equity 10, GP equity 0, pref rate 100%, no
catch-up, and yearly cash [0, 12]: year 1 pays nothing and carries an LP
deficit of 10; year 2 pays 12 of the 20 then owed, so the deficit strictly
decreases to 8 even though the payment (12) does not fully cover the prior
deficit plus the current preference (10 + 10 = 20, remaining deficit 8 ≠ 0),
contradicting the claim's "only when fully covered" condition. -/
theorem deficit_decrease_without_full_coverage :
    (calculate_multi_year_waterfall [0, 12] 10 0 100 20 false).map
        (fun rows => rows.map fun r => (r.lp_pref, r.lp_pref_deficit)) =
      some [(0, 10), (12, 8)] ∧
    (8 : ℚ) < 10 ∧ (12 : ℚ) < 10 + 10 ∧ (8 : ℚ) ≠ 0 := by
  refine ⟨?_, by norm_num, by norm_num, by norm_num⟩
  norm_num [calculate_multi_year_waterfall, multi_year_go,
    calculate_waterfall_distribution]

/-- C2 (amended): for every cash-available sequence run through
`calculate_multi_year_waterfall` with non-negative equities and preferred
rate, the carried LP and GP preference deficits are non-negative in every
produced row, and a party's deficit strictly decreases from one year to the
next if and only if that year's preference payment to the party strictly
exceeds the party's current-year preference (full coverage of prior plus
current preference is exactly the case where the deficit reaches zero, not
the only case where it decreases). -/
theorem multi_year_deficit_invariant (cash_list : List ℚ)
    (lp gp pr share : ℚ) (ic : Bool) (rows : List WaterfallRow)
    (hlp : 0 ≤ lp) (hgp : 0 ≤ gp) (hpr : 0 ≤ pr)
    (h : calculate_multi_year_waterfall cash_list lp gp pr share ic = some rows) :
    (∀ r ∈ rows, 0 ≤ r.lp_pref_deficit ∧ 0 ≤ r.gp_pref_deficit) ∧
    List.Chain' (deficit_step (lp * (pr / 100)) (gp * (pr / 100))) rows := by
  obtain ⟨h1, h2, -⟩ := multi_year_go_deficit_sound lp gp pr share ic hlp hgp hpr
    cash_list 1 0 0 0 0 le_rfl le_rfl rows h
  exact ⟨h1, h2⟩

/-- Witness for the amended C2 at the concrete run with LP equity 10, GP
equity 0, pref rate 100%, share 20%, no catch-up, cash sequence [0, 12]. -/
theorem multi_year_deficit_invariant_witness :
    (∀ r ∈ [({ year := 1, cash_available := 0, lp_pref := 0, lp_split := 0, lp_total := 0, lp_cumulative := 0, gp_pref := 0, gp_catchup := 0, gp_split := 0, gp_total := 0, gp_cumulative := 0, lp_pref_deficit := 10, gp_pref_deficit := 0 } : WaterfallRow),
             ({ year := 2, cash_available := 12, lp_pref := 12, lp_split := 0, lp_total := 12, lp_cumulative := 12, gp_pref := 0, gp_catchup := 0, gp_split := 0, gp_total := 0, gp_cumulative := 0, lp_pref_deficit := 8, gp_pref_deficit := 0 } : WaterfallRow)],
        0 ≤ r.lp_pref_deficit ∧ 0 ≤ r.gp_pref_deficit) ∧
    List.Chain' (deficit_step (10 * ((100 : ℚ) / 100)) (0 * ((100 : ℚ) / 100)))
      [({ year := 1, cash_available := 0, lp_pref := 0, lp_split := 0, lp_total := 0, lp_cumulative := 0, gp_pref := 0, gp_catchup := 0, gp_split := 0, gp_total := 0, gp_cumulative := 0, lp_pref_deficit := 10, gp_pref_deficit := 0 } : WaterfallRow),
       ({ year := 2, cash_available := 12, lp_pref := 12, lp_split := 0, lp_total := 12, lp_cumulative := 12, gp_pref := 0, gp_catchup := 0, gp_split := 0, gp_total := 0, gp_cumulative := 0, lp_pref_deficit := 8, gp_pref_deficit := 0 } : WaterfallRow)] :=
  multi_year_deficit_invariant [0, 12] 10 0 100 20 false _
    (by norm_num) (by norm_num) (by norm_num)
    (by norm_num [calculate_multi_year_waterfall, multi_year_go,
      calculate_waterfall_distribution])

/-- C4 counterexample: at cash available -5 (LP equity 10, GP equity 0,
pref 10%, share 20%, no deficits, no catch-up) the code distributes 0 in
total, while the claim's `min(cash_available, total distributable)` is -5 for
every non-negative notion of "total distributable" (here the total pref owed,
1, is shown); 0 ≠ -5, so the claim as stated fails for negative cash. -/
theorem waterfall_conservation_counterexample :
    (calculate_waterfall_distribution (-5) 10 0 10 20 0 0 false).map
        (fun d => (d.lp_total + d.gp_total, d.lp_pref_owed + d.gp_pref_owed)) =
      some (0, 1) ∧
    min (-5 : ℚ) 1 = -5 ∧ (0 : ℚ) ≠ -5 := by
  refine ⟨by norm_num [calculate_waterfall_distribution], by norm_num, by norm_num⟩

/-- C4 (amended): for every input on which the function returns, the year's
LP total plus GP total equals `max cash_available 0` — all available cash is
absorbed with no leakage when cash is positive (the tier payouts sum exactly
to the cash consumed), and nothing is distributed when cash is non-positive. -/
theorem waterfall_conservation_clamped (cash lp gp pr share lpD gpD : ℚ)
    (ic : Bool) (d : WaterfallResult)
    (h : calculate_waterfall_distribution cash lp gp pr share lpD gpD ic = some d) :
    d.lp_total + d.gp_total = max cash 0 ∧
    d.lp_pref_paid + d.gp_pref_paid + d.gp_catchup + d.lp_split + d.gp_split =
      max cash 0 := by
  obtain ⟨ht1, ht2, -, -, -, -⟩ :=
    waterfall_totals_eq cash lp gp pr share lpD gpD ic d h
  suffices hmain : d.lp_total + d.gp_total = max cash 0 by
    exact ⟨hmain, by linarith⟩
  simp only [calculate_waterfall_distribution] at h
  set a := lp * (pr / 100) + lpD with ha
  set b := gp * (pr / 100) + gpD with hb
  set P := min cash (a + b) with hP
  split_ifs at h with h1 h2 h3 h4 h5 h6 h7 h8 h9
  all_goals (rw [Option.some_inj] at h; subst h; dsimp only)
  · -- tier 2 paid, catch-up taken, residual split taken
    obtain ⟨hc, htot⟩ := h1
    rw [max_eq_left hc.le]
    have hab : a + b ≠ 0 := ne_of_gt htot
    field_simp
    ring
  · -- tier 2 paid, catch-up consumed all remaining cash
    obtain ⟨hc, htot⟩ := h1
    rw [max_eq_left hc.le]
    have hab : a + b ≠ 0 := ne_of_gt htot
    have hsum : P * (a / (a + b)) + P * (b / (a + b)) = P := by
      field_simp
      ring
    have hCle : (cash - P) ⊓
        (0 ⊔ share / 100 * (P * (a / (a + b)) + P * (b / (a + b))) /
          (1 - share / 100)) ≤ cash - P := min_le_left _ _
    push_neg at h4
    linarith
  · -- tier 2 paid, no catch-up, residual split taken
    obtain ⟨hc, htot⟩ := h1
    rw [max_eq_left hc.le]
    have hab : a + b ≠ 0 := ne_of_gt htot
    field_simp
    ring
  · -- tier 2 consumed all cash
    obtain ⟨hc, htot⟩ := h1
    rw [max_eq_left hc.le]
    have hab : a + b ≠ 0 := ne_of_gt htot
    have hsum : P * (a / (a + b)) + P * (b / (a + b)) = P := by
      field_simp
      ring
    have hPle : P ≤ cash := min_le_left _ _
    push_neg at h5
    linarith
  · -- no pref owed, catch-up tier reached with positive cash
    have hc := h7.2.1
    rw [max_eq_left hc.le]
    have hC0 : cash ⊓ (0 ⊔ share / 100 * ((0 : ℚ) + 0) / (1 - share / 100)) = 0 := by
      rw [add_zero, mul_zero, zero_div, max_self, min_eq_right hc.le]
    rw [hC0]
    ring
  · -- no pref owed, catch-up tier reached but no residual (contradiction)
    exfalso
    have hc := h7.2.1
    have hC0 : cash ⊓ (0 ⊔ share / 100 * ((0 : ℚ) + 0) / (1 - share / 100)) = 0 := by
      rw [add_zero, mul_zero, zero_div, max_self, min_eq_right hc.le]
    rw [hC0] at h8
    push_neg at h8
    linarith
  · -- nothing owed, no catch-up, residual split of all cash
    have hc : (0 : ℚ) < cash := by linarith [h9]
    rw [max_eq_left hc.le]
    ring
  · -- nothing owed, no catch-up, non-positive cash
    push_neg at h9
    rw [max_eq_right (by linarith : cash ≤ 0)]
    ring

/-- Witness for the amended C4 at cash 50, LP equity 90, GP equity 10,
pref 10%, share 20%, catch-up enabled: all 50 of cash is distributed. -/
theorem waterfall_conservation_clamped_witness :
    (calculate_waterfall_distribution 50 90 10 10 20 0 0 true).map
        (fun d => d.lp_total + d.gp_total) = some (max (50 : ℚ) 0) := by
  have h : calculate_waterfall_distribution 50 90 10 10 20 0 0 true =
      some { cash_available := 50, lp_pref_current := 9, gp_pref_current := 1, lp_pref_owed := 9, gp_pref_owed := 1, lp_pref_paid := 9, gp_pref_paid := 1, gp_catchup := 5 / 2, lp_split := 30, gp_split := 15 / 2, lp_total := 39, gp_total := 11, total_distributed := 50, new_lp_deficit := 0, new_gp_deficit := 0 } := by
    norm_num [calculate_waterfall_distribution]
  rw [h]
  exact congrArg some
    (waterfall_conservation_clamped 50 90 10 10 20 0 0 true _ h).1

/-! ## financing.py -/

/-- Embedding of `calculate_bridge_loan_balance`
(src/calculations/financing.py lines 18-39).  `term_years` and `year` are
natural numbers (the callers pass whole years); the signed
`remaining_payments` subtraction is carried out in `ℤ` exactly as Python's
int subtraction.  The zero-rate straight-line branch (line 30) returns before
the `remaining_payments <= 0` clamp of line 35, as in the source. -/
def calculate_bridge_loan_balance (loan_amount annual_rate : ℚ)
    (term_years year : ℕ) (interest_only : Bool) : ℚ :=
  if interest_only then loan_amount
  else
    let monthly_rate := annual_rate / 100 / 12
    let num_payments_made : ℤ := (year : ℤ) * 12
    let total_payments : ℤ := (term_years : ℤ) * 12
    if monthly_rate = 0 then
      loan_amount - loan_amount / (total_payments : ℚ) * (num_payments_made : ℚ)
    else
      let remaining_payments : ℤ := total_payments - num_payments_made
      let monthly_payment := loan_amount *
        (monthly_rate * (1 + monthly_rate) ^ (term_years * 12)) /
        ((1 + monthly_rate) ^ (term_years * 12) - 1)
      if remaining_payments ≤ 0 then 0
      else monthly_payment * ((1 + monthly_rate) ^ remaining_payments.toNat - 1) /
        (monthly_rate * (1 + monthly_rate) ^ remaining_payments.toNat)

/-- Embedding of `calculate_perm_loan_balance`
(src/calculations/financing.py lines 71-88).  The zero-rate straight-line
branch (line 78) returns before the `remaining_payments <= 0` clamp of
line 82, as in the source. -/
def calculate_perm_loan_balance (loan_amount annual_rate : ℚ)
    (amort_years year : ℕ) : ℚ :=
  let monthly_rate := annual_rate / 100 / 12
  let total_payments : ℤ := (amort_years : ℤ) * 12
  let num_payments_made : ℤ := (year : ℤ) * 12
  if monthly_rate = 0 then
    loan_amount - loan_amount / (total_payments : ℚ) * (num_payments_made : ℚ)
  else
    let remaining_payments : ℤ := total_payments - num_payments_made
    if remaining_payments ≤ 0 then 0
    else
      let monthly_payment := loan_amount *
        (monthly_rate * (1 + monthly_rate) ^ (amort_years * 12)) /
        ((1 + monthly_rate) ^ (amort_years * 12) - 1)
      monthly_payment * ((1 + monthly_rate) ^ remaining_payments.toNat - 1) /
        (monthly_rate * (1 + monthly_rate) ^ remaining_payments.toNat)

/-- Embedding of `calculate_perm_loan_payment`
(src/calculations/financing.py lines 59-69). -/
def calculate_perm_loan_payment (loan_amount annual_rate : ℚ)
    (amort_years : ℕ) : ℚ :=
  let monthly_rate := annual_rate / 100 / 12
  let num_payments := amort_years * 12
  let monthly_payment :=
    if monthly_rate = 0 then loan_amount / (num_payments : ℚ)
    else loan_amount * (monthly_rate * (1 + monthly_rate) ^ num_payments) /
      ((1 + monthly_rate) ^ num_payments - 1)
  monthly_payment * 12

/-- Embedding of `calculate_loan_from_payment`
(src/calculations/financing.py lines 109-119). -/
def calculate_loan_from_payment (annual_payment annual_rate : ℚ)
    (amort_years : ℕ) : ℚ :=
  let monthly_payment := annual_payment / 12
  let monthly_rate := annual_rate / 100 / 12
  let num_payments := amort_years * 12
  if monthly_rate = 0 then monthly_payment * (num_payments : ℚ)
  else monthly_payment * ((1 + monthly_rate) ^ num_payments - 1) /
    (monthly_rate * (1 + monthly_rate) ^ num_payments)

/-- The three refinance valuation methods dispatched on strings in
`calculate_refinance` (src/calculations/financing.py lines 132-142):
"Based on Cap Rate", "Fixed Property Value", and the else-branch
"Based on Original Purchase Price". -/
inductive RefiValuationMethod where
  | capRate
  | fixedValue
  | originalPurchasePrice
  deriving DecidableEq, Repr

/-- Result dictionary of `calculate_refinance`
(src/calculations/financing.py lines 205-237), numeric fields only.  The
string fields (`valuation_method`, `binding_constraint`,
`cashout_explanation`), the `refi_cap_rate` echo, the possibly-infinite
`final_dscr`, and the duplicate backward-compatibility aliases are omitted;
`net_proceeds_before_cashout_limit` exposes the line-169 local of the same
name. -/
structure RefinanceResult where
  property_value : ℚ
  noi_at_refi : ℚ
  max_loan_by_ltv : ℚ
  max_loan_by_dscr : ℚ
  new_loan_amount : ℚ
  bridge_payoff : ℚ
  prepayment_penalty : ℚ
  perm_origination : ℚ
  refi_legal_costs : ℚ
  total_refi_costs : ℚ
  gross_proceeds : ℚ
  net_proceeds_before_cashout_limit : ℚ
  net_proceeds : ℚ
  cashout_limited : Bool
  final_debt_service : ℚ
  final_ltv : ℚ
  equity_before_refi : ℚ
  equity_after_refi : ℚ
  deriving DecidableEq, Repr

/-- Embedding of `calculate_refinance`
(src/calculations/financing.py lines 121-237).  Division is Lean's total
`ℚ` division (`x / 0 = 0`); the source's unguarded divisions
(`refi_cap_rate`, `target_dscr`) would raise in Python on zero denominators,
inputs the theorems below do not exercise. -/
def calculate_refinance (noi_at_refi : ℚ)
    (refi_valuation_method : RefiValuationMethod)
    (refi_cap_rate fixed_refi_value purchase_price : ℚ) (years_to_refi : ℕ)
    (appreciation_rate perm_rate perm_ltv : ℚ) (perm_amort : ℕ)
    (target_dscr : ℚ) (use_conservative allow_cashout : Bool)
    (max_cashout_pct bridge_balance bridge_prepay_penalty_pct
      perm_orig_points refi_legal_costs : ℚ) : RefinanceResult :=
  -- Step 1: property value at refinance (lines 132-142)
  let property_value :=
    match refi_valuation_method with
    | .capRate => noi_at_refi / (refi_cap_rate / 100)
    | .fixedValue => fixed_refi_value
    | .originalPurchasePrice =>
        purchase_price * (1 + appreciation_rate / 100) ^ years_to_refi
  -- Steps 2-3: LTV and DSCR loan caps (lines 144-151)
  let max_loan_by_ltv := property_value * (perm_ltv / 100)
  let max_debt_service_by_dscr := noi_at_refi / target_dscr
  let max_loan_by_dscr :=
    calculate_loan_from_payment max_debt_service_by_dscr perm_rate perm_amort
  -- Step 4: binding constraint (lines 153-159)
  let new_loan_amount_0 :=
    if use_conservative then min max_loan_by_ltv max_loan_by_dscr
    else max max_loan_by_ltv max_loan_by_dscr
  -- Step 5: refinance costs (lines 161-164)
  let prepayment_penalty := bridge_balance * (bridge_prepay_penalty_pct / 100)
  let perm_origination := new_loan_amount_0 * (perm_orig_points / 100)
  let total_refi_costs := prepayment_penalty + perm_origination + refi_legal_costs
  -- Step 6: proceeds (lines 166-169)
  let bridge_payoff := bridge_balance
  let net_proceeds_before_cashout_limit :=
    new_loan_amount_0 - bridge_payoff - total_refi_costs
  -- Step 7: cash-out limits (lines 171-198), one scalar `if` per variable
  let equity_gained := property_value - purchase_price
  let max_cashout_allowed := equity_gained * (max_cashout_pct / 100)
  let new_loan_amount :=
    if allow_cashout = false ∧ net_proceeds_before_cashout_limit > 0 then
      bridge_balance + total_refi_costs
    else if allow_cashout = true ∧ net_proceeds_before_cashout_limit > 0 then
      if net_proceeds_before_cashout_limit > max_cashout_allowed then
        bridge_balance + total_refi_costs + max_cashout_allowed
      else new_loan_amount_0
    else new_loan_amount_0
  let net_proceeds :=
    if allow_cashout = false ∧ net_proceeds_before_cashout_limit > 0 then 0
    else if allow_cashout = true ∧ net_proceeds_before_cashout_limit > 0 then
      if net_proceeds_before_cashout_limit > max_cashout_allowed then
        max_cashout_allowed
      else net_proceeds_before_cashout_limit
    else net_proceeds_before_cashout_limit
  let cashout_limited :=
    if allow_cashout = false ∧ net_proceeds_before_cashout_limit > 0 then true
    else if allow_cashout = true ∧ net_proceeds_before_cashout_limit > 0 then
      decide (net_proceeds_before_cashout_limit > max_cashout_allowed)
    else false
  -- Step 8: final metrics (lines 200-203)
  let final_debt_service :=
    calculate_perm_loan_payment new_loan_amount perm_rate perm_amort
  let final_ltv :=
    if property_value > 0 then new_loan_amount / property_value * 100 else 0
  { property_value := property_value
    noi_at_refi := noi_at_refi
    max_loan_by_ltv := max_loan_by_ltv
    max_loan_by_dscr := max_loan_by_dscr
    new_loan_amount := new_loan_amount
    bridge_payoff := bridge_payoff
    prepayment_penalty := prepayment_penalty
    perm_origination := perm_origination
    refi_legal_costs := refi_legal_costs
    total_refi_costs := total_refi_costs
    gross_proceeds := new_loan_amount
    net_proceeds_before_cashout_limit := net_proceeds_before_cashout_limit
    net_proceeds := net_proceeds
    cashout_limited := cashout_limited
    final_debt_service := final_debt_service
    final_ltv := final_ltv
    equity_before_refi := property_value - bridge_balance
    equity_after_refi := property_value - new_loan_amount }

/-- C3: whenever the unconstrained net proceeds (new loan minus payoff minus
total costs) are positive: with cash-out disallowed the new loan is resized
to exactly bridge payoff plus costs and the returned net proceeds are 0;
with cash-out allowed the returned net proceeds never exceed
max_cashout_pct% of (property value minus purchase price), the loan being
resized to cap proceeds at that limit when the unconstrained proceeds
exceed it. -/
theorem refinance_cashout_cap (noi : ℚ) (method : RefiValuationMethod)
    (cap fixedv pp : ℚ) (yrs : ℕ) (app prate ltv : ℚ) (amort : ℕ) (dscr : ℚ)
    (cons cashout : Bool) (pct bb prepay points legal : ℚ)
    (r : RefinanceResult)
    (hr : r = calculate_refinance noi method cap fixedv pp yrs app prate ltv
      amort dscr cons cashout pct bb prepay points legal)
    (hpos : 0 < r.net_proceeds_before_cashout_limit) :
    (cashout = false → r.net_proceeds = 0 ∧
      r.new_loan_amount = bb + r.total_refi_costs) ∧
    (cashout = true →
      r.net_proceeds ≤ (r.property_value - pp) * (pct / 100) ∧
      ((r.property_value - pp) * (pct / 100) < r.net_proceeds_before_cashout_limit →
        r.new_loan_amount =
          bb + r.total_refi_costs + (r.property_value - pp) * (pct / 100))) := by
  subst hr
  simp only [calculate_refinance] at hpos ⊢
  split_ifs at hpos ⊢ with h1 h2 h3 h4 h5 h6 h7
  · refine ⟨fun _ => ⟨rfl, rfl⟩, fun hct => absurd (h2.1.symm.trans hct) (by simp)⟩
  · refine ⟨fun hcf => absurd (h3.1.symm.trans hcf) (by simp),
      fun _ => ⟨le_refl _, fun _ => rfl⟩⟩
  · refine ⟨fun hcf => absurd (h3.1.symm.trans hcf) (by simp),
      fun _ => ⟨not_lt.1 h4, fun hx => absurd hx h4⟩⟩
  · exfalso
    cases cashout
    · exact h2 ⟨rfl, hpos⟩
    · exact h3 ⟨rfl, hpos⟩
  · refine ⟨fun _ => ⟨rfl, rfl⟩, fun hct => absurd (h5.1.symm.trans hct) (by simp)⟩
  · refine ⟨fun hcf => absurd (h6.1.symm.trans hcf) (by simp),
      fun _ => ⟨le_refl _, fun _ => rfl⟩⟩
  · refine ⟨fun hcf => absurd (h6.1.symm.trans hcf) (by simp),
      fun _ => ⟨not_lt.1 h7, fun hx => absurd hx h7⟩⟩
  · exfalso
    cases cashout
    · exact h5 ⟨rfl, hpos⟩
    · exact h6 ⟨rfl, hpos⟩

/-- Witness for C3: fixed appraisal 2000 on a 1000 purchase, zero-rate loan
capped by LTV/DSCR at 1000, bridge payoff 300 and no costs give unconstrained
proceeds 700 > limit 500 = 50% of the 1000 equity gain, so proceeds are 500
and the loan is resized to 800. -/
theorem refinance_cashout_cap_witness :
    (true = false →
      (calculate_refinance 100 RefiValuationMethod.fixedValue 8 2000 1000 3 0 0
          50 20 2 true true 50 300 0 0 0).net_proceeds = 0 ∧
      (calculate_refinance 100 RefiValuationMethod.fixedValue 8 2000 1000 3 0 0
          50 20 2 true true 50 300 0 0 0).new_loan_amount =
        300 + (calculate_refinance 100 RefiValuationMethod.fixedValue 8 2000
          1000 3 0 0 50 20 2 true true 50 300 0 0 0).total_refi_costs) ∧
    (true = true →
      (calculate_refinance 100 RefiValuationMethod.fixedValue 8 2000 1000 3 0 0
          50 20 2 true true 50 300 0 0 0).net_proceeds ≤
        ((calculate_refinance 100 RefiValuationMethod.fixedValue 8 2000 1000 3
          0 0 50 20 2 true true 50 300 0 0 0).property_value - 1000) * (50 / 100) ∧
      (((calculate_refinance 100 RefiValuationMethod.fixedValue 8 2000 1000 3 0
          0 50 20 2 true true 50 300 0 0 0).property_value - 1000) * (50 / 100) <
        (calculate_refinance 100 RefiValuationMethod.fixedValue 8 2000 1000 3 0
          0 50 20 2 true true 50 300 0 0 0).net_proceeds_before_cashout_limit →
        (calculate_refinance 100 RefiValuationMethod.fixedValue 8 2000 1000 3 0
          0 50 20 2 true true 50 300 0 0 0).new_loan_amount =
          300 + (calculate_refinance 100 RefiValuationMethod.fixedValue 8 2000
            1000 3 0 0 50 20 2 true true 50 300 0 0 0).total_refi_costs +
          ((calculate_refinance 100 RefiValuationMethod.fixedValue 8 2000 1000
            3 0 0 50 20 2 true true 50 300 0 0 0).property_value - 1000) *
            (50 / 100))) :=
  refinance_cashout_cap 100 RefiValuationMethod.fixedValue 8 2000 1000 3 0 0
    50 20 2 true true 50 300 0 0 0 _ rfl
    (by norm_num [calculate_refinance, calculate_loan_from_payment])

/-- C6 counterexample: at principal 1200, rate 0, 10-year amortization, the
balance at year 11 (elapsed years past the term) is -120, not 0 — the
zero-rate straight-line branch returns before the end-of-term clamp. -/
theorem perm_balance_past_term_counterexample :
    calculate_perm_loan_balance 1200 0 10 11 = -120 ∧ (-120 : ℚ) ≠ 0 := by
  constructor
  · norm_num [calculate_perm_loan_balance]
  · norm_num

/-- C6 (amended): for every principal, amortization term of at least one
year, and non-negative rate: the amortizing balance at 0 elapsed years is
exactly the principal; for strictly positive rates the balance is 0 at every
elapsed year at or past the term; at zero rate the balance is 0 exactly at
the end of the term (and goes negative past it, per the counterexample);
and the interest-only bridge balance equals the principal at every elapsed
year. -/
theorem loan_balance_endpoints (loan rate : ℚ) (amort year : ℕ)
    (hamort : 1 ≤ amort) (hrate : 0 ≤ rate) :
    calculate_perm_loan_balance loan rate amort 0 = loan ∧
    (0 < rate → amort ≤ year → calculate_perm_loan_balance loan rate amort year = 0) ∧
    (rate = 0 → calculate_perm_loan_balance loan rate amort amort = 0) ∧
    ∀ y : ℕ, calculate_bridge_loan_balance loan rate amort y true = loan := by
  refine ⟨?_, ?_, ?_, ?_⟩
  · rcases eq_or_lt_of_le hrate with h0 | h0
    · simp only [calculate_perm_loan_balance, ← h0]
      norm_num
    · have hm : rate / 100 / 12 ≠ 0 := ne_of_gt (by positivity)
      have hm0 : 0 < rate / 100 / 12 := by positivity
      simp only [calculate_perm_loan_balance]
      rw [if_neg hm, if_neg (by omega : ¬((amort : ℤ) * 12 - ((0 : ℕ) : ℤ) * 12 ≤ 0))]
      have hR : ((amort : ℤ) * 12 - ((0 : ℕ) : ℤ) * 12).toNat = amort * 12 := by
        omega
      rw [hR]
      have hA : 1 < (1 + rate / 100 / 12) ^ (amort * 12) :=
        (one_lt_pow_iff_of_nonneg (by linarith) (by positivity)).2 (by linarith)
      have hA0 : (0 : ℚ) < (1 + rate / 100 / 12) ^ (amort * 12) := by linarith
      have hA1 : (1 + rate / 100 / 12) ^ (amort * 12) - 1 ≠ 0 :=
        sub_ne_zero.2 (ne_of_gt hA)
      have hmA : rate / 100 / 12 * (1 + rate / 100 / 12) ^ (amort * 12) ≠ 0 :=
        ne_of_gt (by positivity)
      rw [div_mul_cancel₀ _ hA1, mul_div_cancel_right₀ _ hmA]
  · intro hpos hyear
    have hm : rate / 100 / 12 ≠ 0 := ne_of_gt (by positivity)
    simp only [calculate_perm_loan_balance]
    rw [if_neg hm, if_pos (by omega : (amort : ℤ) * 12 - (year : ℤ) * 12 ≤ 0)]
  · intro h0
    subst h0
    simp only [calculate_perm_loan_balance]
    norm_num
    have hX : ((amort : ℚ) * 12) ≠ 0 := by positivity
    rw [div_mul_cancel₀ loan hX, sub_self]
  · intro y
    simp [calculate_bridge_loan_balance]

/-- Witness for the amended C6 at principal 1000, rate 6%, 2-year
amortization, elapsed year 5. -/
theorem loan_balance_endpoints_witness :
    calculate_perm_loan_balance 1000 6 2 0 = 1000 ∧
    ((0 : ℚ) < 6 → (2 : ℕ) ≤ 5 → calculate_perm_loan_balance 1000 6 2 5 = 0) ∧
    ((6 : ℚ) = 0 → calculate_perm_loan_balance 1000 6 2 2 = 0) ∧
    ∀ y : ℕ, calculate_bridge_loan_balance 1000 6 2 y true = 1000 :=
  loan_balance_endpoints 1000 6 2 5 (by norm_num) (by norm_num)

/-! ## cash_flows.py -/

/-- The three rent-escalation structures dispatched on strings in
cash_flows.py: "Fixed Bumps Every N Years", "Annual Escalator (%)", and the
else-branch "Flat". -/
inductive RentStructureType where
  | fixedBumpsEveryNYears
  | annualEscalator
  | flat
  deriving DecidableEq, Repr

/-- One row of the DataFrame built by `calculate_noi_projection_with_lease`
(src/calculations/cash_flows.py lines 97-102); the "Lease Status" string is
encoded as `renewal_year = none` for "Current Term" and `some k` for
"Renewal Year k". -/
structure LeaseNOIRow where
  year : ℕ
  noi : ℚ
  renewal_year : Option ℕ
  years_remaining_current_term : ℕ
  deriving DecidableEq, Repr

/-- Embedding of `calculate_noi_projection_with_lease`
(src/calculations/cash_flows.py lines 53-104).  The `lease_runway` parameter
is accepted and never read, exactly as in the source body.  Year counts are
naturals: Python's `//` on the non-negative operands here is `Nat.div`, and
the exponent `total_bumps_at_this_point - bumps_already_fired` is a `ℕ`
subtraction, which agrees with Python's int subtraction because
`(years_elapsed + year - 1) // f ≥ years_elapsed // f` for every `year ≥ 1`.
The source's `max(0, current_term_remaining - year)` is `ℕ` truncated
subtraction. -/
def calculate_noi_projection_with_lease (base_rent : ℚ)
    (rent_structure_type : RentStructureType) (bump_frequency : ℕ)
    (bump_pct annual_escalator : ℚ) (years current_term_remaining : ℕ)
    (lease_runway : ℚ) (years_elapsed : ℕ) : List LeaseNOIRow :=
  let bumps_already_fired :=
    if rent_structure_type = .fixedBumpsEveryNYears ∧ bump_frequency > 0 then
      years_elapsed / bump_frequency
    else 0
  (List.range years).map fun i =>
    let year := i + 1
    let years_from_original_start := years_elapsed + year
    let noi :=
      if rent_structure_type = .fixedBumpsEveryNYears ∧ bump_frequency > 0 then
        base_rent * (1 + bump_pct / 100) ^
          ((years_from_original_start - 1) / bump_frequency - bumps_already_fired)
      else if rent_structure_type = .annualEscalator then
        base_rent * (1 + annual_escalator / 100) ^ (year - 1)
      else base_rent
    { year := year
      noi := noi
      renewal_year :=
        if year > current_term_remaining then
          some (year - current_term_remaining)
        else none
      years_remaining_current_term := current_term_remaining - year }

/-- One tenant record consumed by `calculate_multi_tenant_noi`
(src/calculations/cash_flows.py lines 162-204): the `status` string is
encoded by the `vacant` flag (the source tests `tenant['status'] == 'Vacant'`)
and the `name` used only inside status labels is omitted. -/
structure Tenant where
  annual_rent : ℚ
  years_elapsed : ℕ
  lease_expiration_year : ℕ
  renewal_options : ℕ
  option_term : ℕ
  escalation_type : RentStructureType
  bump_frequency : ℕ
  bump_percentage : ℚ
  annual_escalator : ℚ
  vacant : Bool
  deriving DecidableEq, Repr

/-- Rent contributed by one tenant in one projection year: the loop body of
`calculate_multi_tenant_noi` (src/calculations/cash_flows.py lines 162-204).
A vacant tenant, or one past expiration whose renewal option number
`(years_past_expiration - 1) // option_term + 1` exceeds its granted options,
contributes 0 (`continue`); otherwise the rent escalates per the tenant's
rule with `years_since_start = years_elapsed + year - 1`.  With
`option_term = 0` and `year > lease_expiration_year` Python would raise
`ZeroDivisionError`; `Nat.div` by 0 yields option number 1 instead — no
claim exercises that input. -/
def tenant_rent_contribution (t : Tenant) (year : ℕ) : ℚ :=
  if t.vacant then 0
  else if year > t.lease_expiration_year ∧
      (year - t.lease_expiration_year - 1) / t.option_term + 1 >
        t.renewal_options then 0
  else
    let years_since_start := t.years_elapsed + year - 1
    match t.escalation_type with
    | .fixedBumpsEveryNYears =>
        if t.bump_frequency > 0 then
          t.annual_rent * (1 + t.bump_percentage / 100) ^
            (years_since_start / t.bump_frequency)
        else t.annual_rent
    | .annualEscalator =>
        t.annual_rent * (1 + t.annual_escalator / 100) ^ years_since_start
    | .flat => t.annual_rent

/-- Embedding of `calculate_multi_tenant_noi`
(src/calculations/cash_flows.py lines 146-212): the NOI column of the
returned DataFrame, one entry per year 1..holding_period, each the sum of
the tenants' contributions that year; the "Lease Status" label column is
presentation only and is omitted. -/
def calculate_multi_tenant_noi (tenants_list : List Tenant)
    (holding_period : ℕ) : List ℚ :=
  (List.range holding_period).map fun i =>
    (tenants_list.map fun t => tenant_rent_contribution t (i + 1)).sum

/-- C7: a single occupied tenant with rent 100000, a 10% bump every 5 years,
0 years elapsed at acquisition, and a lease running through year 10 produces
NOI exactly 100000 in years 1-5 and 110000 in year 6 of a 6-year projection;
in general a non-vacant fixed-bump tenant that has not exhausted its
lease/options contributes
base × (1+bump%)^((years_elapsed + year − 1) // bump_frequency) in year
`year`, and the single-tenant NOI list exposes exactly that value at
position year − 1. -/
theorem multi_tenant_fixed_bump_rent :
    calculate_multi_tenant_noi [{ annual_rent := 100000, years_elapsed := 0, lease_expiration_year := 10, renewal_options := 0, option_term := 5, escalation_type := .fixedBumpsEveryNYears, bump_frequency := 5, bump_percentage := 10, annual_escalator := 0, vacant := false }] 6 =
      [100000, 100000, 100000, 100000, 100000, 110000] ∧
    (∀ (t : Tenant) (year : ℕ), t.vacant = false →
      t.escalation_type = .fixedBumpsEveryNYears → 0 < t.bump_frequency →
      ¬(year > t.lease_expiration_year ∧
        (year - t.lease_expiration_year - 1) / t.option_term + 1 >
          t.renewal_options) →
      tenant_rent_contribution t year =
        t.annual_rent * (1 + t.bump_percentage / 100) ^
          ((t.years_elapsed + year - 1) / t.bump_frequency)) ∧
    (∀ (t : Tenant) (holding year : ℕ), 1 ≤ year → year ≤ holding →
      (calculate_multi_tenant_noi [t] holding)[year - 1]? =
        some (tenant_rent_contribution t year)) := by
  refine ⟨?_, ?_, ?_⟩
  · have hr : List.range 6 = [0, 1, 2, 3, 4, 5] := rfl
    simp only [calculate_multi_tenant_noi, hr, List.map_cons, List.map_nil,
      tenant_rent_contribution]
    norm_num
  · intro t year hvac hesc hfreq hgate
    simp only [tenant_rent_contribution, hvac, Bool.false_eq_true, if_false,
      hgate, hesc, if_pos hfreq]
  · intro t holding year h1 h2
    have hylt : year - 1 < holding := by omega
    simp only [calculate_multi_tenant_noi, List.getElem?_map,
      List.getElem?_range, hylt, if_pos, List.map_cons, List.map_nil,
      List.sum_cons, List.sum_nil, add_zero, Option.map_some']
    rw [Nat.sub_add_cancel h1]

/-- Witness for the quantified parts of C7 at the concrete tenant of the
scenario, year 6 of a 6-year hold. -/
theorem multi_tenant_fixed_bump_rent_witness :
    tenant_rent_contribution { annual_rent := 100000, years_elapsed := 0, lease_expiration_year := 10, renewal_options := 0, option_term := 5, escalation_type := .fixedBumpsEveryNYears, bump_frequency := 5, bump_percentage := 10, annual_escalator := 0, vacant := false } 6 =
      (100000 : ℚ) * (1 + 10 / 100) ^ ((0 + 6 - 1) / 5) ∧
    (calculate_multi_tenant_noi [{ annual_rent := 100000, years_elapsed := 0, lease_expiration_year := 10, renewal_options := 0, option_term := 5, escalation_type := .fixedBumpsEveryNYears, bump_frequency := 5, bump_percentage := 10, annual_escalator := 0, vacant := false }] 6)[6 - 1]? =
      some (tenant_rent_contribution { annual_rent := 100000, years_elapsed := 0, lease_expiration_year := 10, renewal_options := 0, option_term := 5, escalation_type := .fixedBumpsEveryNYears, bump_frequency := 5, bump_percentage := 10, annual_escalator := 0, vacant := false } 6) :=
  ⟨multi_tenant_fixed_bump_rent.2.1 _ 6 rfl rfl (by norm_num) (by decide),
   multi_tenant_fixed_bump_rent.2.2 _ 6 6 (by norm_num) (by norm_num)⟩

/-- C8: in the single-tenant legacy projector with fixed bumps and positive
bump frequency, only bumps crossed after acquisition affect rent: the year-y
NOI equals base_rent × (1+bump%)^(((years_elapsed + y − 1) // frequency) −
(years_elapsed // frequency)), and in particular year-1 NOI equals base_rent
exactly for every years_elapsed (no retroactive jump). -/
theorem lease_noi_only_incremental_bumps (base_rent bump_pct annual_escalator
    lease_runway : ℚ) (bump_frequency years current_term_remaining
    years_elapsed y : ℕ) (hfreq : 0 < bump_frequency) (hy1 : 1 ≤ y)
    (hy2 : y ≤ years) :
    ((calculate_noi_projection_with_lease base_rent .fixedBumpsEveryNYears
        bump_frequency bump_pct annual_escalator years current_term_remaining
        lease_runway years_elapsed)[y - 1]?).map LeaseNOIRow.noi =
      some (base_rent * (1 + bump_pct / 100) ^
        ((years_elapsed + y - 1) / bump_frequency -
          years_elapsed / bump_frequency)) ∧
    ((calculate_noi_projection_with_lease base_rent .fixedBumpsEveryNYears
        bump_frequency bump_pct annual_escalator years current_term_remaining
        lease_runway years_elapsed)[0]?).map LeaseNOIRow.noi =
      some base_rent := by
  constructor
  · have hylt : y - 1 < years := by omega
    simp only [calculate_noi_projection_with_lease, List.getElem?_map,
      List.getElem?_range, hylt, if_pos, Option.map_some', if_true, hfreq,
      and_true, and_self, true_and]
    rw [Nat.sub_add_cancel hy1]
  · have h0 : (0 : ℕ) < years := by omega
    simp only [calculate_noi_projection_with_lease, List.getElem?_map,
      List.getElem?_range, h0, if_pos, Option.map_some', if_true, hfreq,
      and_true, and_self, true_and]
    rw [Nat.add_sub_cancel]
    norm_num

/-- Witness for C8 at base rent 100000, 10% bumps every 5 years, 3 years
elapsed at acquisition, projection year 3 of 6. -/
theorem lease_noi_only_incremental_bumps_witness :
    ((calculate_noi_projection_with_lease 100000 .fixedBumpsEveryNYears 5 10 0
        6 10 0 3)[3 - 1]?).map LeaseNOIRow.noi =
      some (100000 * (1 + 10 / 100) ^ ((3 + 3 - 1) / 5 - 3 / 5)) ∧
    ((calculate_noi_projection_with_lease 100000 .fixedBumpsEveryNYears 5 10 0
        6 10 0 3)[0]?).map LeaseNOIRow.noi = some 100000 :=
  lease_noi_only_incremental_bumps 100000 10 0 0 5 6 10 3 3 (by norm_num)
    (by norm_num) (by norm_num)

/-! ## IRR solver (src/app_v2.0_WIP.py) -/

/-- Net present value Σ cf_t / (1+r)^t of a cash-flow list at rate `r`
(the `npv` closure inside `calc_irr`, src/app_v2.0_WIP.py lines 1400-1401). -/
def npv (cashflows : List ℚ) (rate : ℚ) : ℚ :=
  (cashflows.enum.map fun p => p.2 / (1 + rate) ^ p.1).sum

/-- The 200-iteration bisection loop of `calc_irr`
(src/app_v2.0_WIP.py lines 1403-1414), with `fuel` the number of remaining
iterations: each iteration takes the midpoint of [low, high], returns it when
|NPV| < 0.01, otherwise narrows the bracket; after its last iteration the
Python loop falls through to `return mid`, the midpoint of that final
iteration — hence the `fuel = 0` early return.  `_calc_irr_local`
(lines 1147-1162) is the same algorithm. -/
def bisect_irr (cashflows : List ℚ) : ℕ → ℚ → ℚ → ℚ
  | 0, low, high => (low + high) / 2
  | fuel + 1, low, high =>
    let mid := (low + high) / 2
    let val := npv cashflows mid
    if |val| < 1 / 100 then mid
    else if fuel = 0 then mid
    else if val > 0 then bisect_irr cashflows fuel mid high
    else bisect_irr cashflows fuel low mid

/-- Embedding of `calc_irr` (src/app_v2.0_WIP.py lines 1387-1414), and of the
identical `_calc_irr_local` (lines 1147-1162, which folds the length guard
into the sum guard since an empty slice sums to 0): `none` models Python's
`None` ("undefined") result, returned when the list has fewer than two
entries or when the cash flows after year 0 sum to ≤ 0; otherwise the result
of 200 bisection iterations over [-0.5, 5.0]. -/
def calc_irr (cashflows : List ℚ) : Option ℚ :=
  if cashflows.length < 2 then none
  else if (cashflows.drop 1).sum ≤ 0 then none
  else some (bisect_irr cashflows 200 (-(1 / 2)) 5)

/-- C5: the IRR solver returns the "undefined" marker exactly when the sum of
the cash flows after year 0 is ≤ 0 (this subsumes the short-list guard:
fewer than two entries make that sum the empty sum 0); and whenever the sum
is positive it returns the numeric result of the 200-iteration bisection of
NPV over the rate interval [-50%, 500%]. -/
theorem calc_irr_none_iff (cashflows : List ℚ) :
    (calc_irr cashflows = none ↔ (cashflows.drop 1).sum ≤ 0) ∧
    (0 < (cashflows.drop 1).sum →
      calc_irr cashflows = some (bisect_irr cashflows 200 (-(1 / 2)) 5)) := by
  have hlen : cashflows.length < 2 → (cashflows.drop 1).sum ≤ 0 := by
    intro hl
    have hnil : cashflows.drop 1 = [] := by
      rw [List.drop_eq_nil_iff_le]
      omega
    rw [hnil]
    simp
  constructor
  · unfold calc_irr
    split_ifs with h1 h2
    · exact iff_of_true rfl (hlen h1)
    · exact iff_of_true rfl h2
    · exact iff_of_false (by simp) h2
  · intro hpos
    unfold calc_irr
    split_ifs with h1 h2
    · exact absurd (hlen h1) (not_le.2 hpos)
    · exact absurd h2 (not_le.2 hpos)
    · rfl

/-- Witness for C5 at the two-entry cash-flow list [-100, 150], whose
post-year-0 sum 150 is positive. -/
theorem calc_irr_none_iff_witness :
    (0 : ℚ) < ([(-100 : ℚ), 150].drop 1).sum ∧
    calc_irr [(-100 : ℚ), 150] =
      some (bisect_irr [(-100 : ℚ), 150] 200 (-(1 / 2)) 5) :=
  ⟨by norm_num, (calc_irr_none_iff [(-100 : ℚ), 150]).2 (by norm_num)⟩
